import Mathlib

/-!
Verification of the jgpt small-cap gap-trading pipeline.

Shallow embedding of the scoring/classification core of the repository:
the gap scanner (`src/scanners/gap_scanner.py`), the news catalyst scanner
(`src/scanners/news_scanner.py`), the pattern analyzer
(`src/analysis/pattern_analyzer.py`), the edge scorer
(`src/analysis/edge_scorer.py`), the historical-statistics client
(`src/api/flash_research_client.py`) and the scan/alert pipeline of
`src/main.py`.

Conventions of the embedding:
* Python floats are embedded as `ℚ`, Python ints as `ℤ` (or `ℕ` for list
  lengths).  Python `round(x, n)` (round-half-to-even on the scaled value)
  is embedded as `round2` / `round1` below.  Python `int(x)` (truncation
  toward zero) is `pyInt`.
* Python dicts that a function reads through `.get(key, default)` are
  embedded as records with total fields: a dict in which a key is absent
  behaves exactly like the record whose field holds that key's default,
  because every read of a given key in the modelled code uses one fixed
  default.  Where the source stores a key only on some paths and never
  reads it on the others, the record field is filled with the default and
  this is noted at the definition.
* `None`-or-dict parameters are embedded as `Option` of the record type;
  a Python exception raised inside a `try` block is embedded with
  `Except String`.
* The module-level pseudo-random generator of Python's `random` is
  embedded as an explicitly threaded state: a stream (`List ℕ`) of raw
  draws, consumed one draw per `random.randint` / `random.uniform` call.
-/

namespace JGPT

/-- Python `int(x)` for a rational `x`: truncation toward zero. -/
def pyInt (q : ℚ) : ℤ :=
if 0 ≤ q then ⌊q⌋ else ⌈q⌉

/-- Round-half-to-even to the nearest integer, as Python's built-in `round`. -/
def roundHalfEven (q : ℚ) : ℤ :=
if q - ⌊q⌋ < 1/2 then ⌊q⌋
else if q - ⌊q⌋ > 1/2 then ⌊q⌋ + 1
else if Even (⌊q⌋ : ℤ) then ⌊q⌋ else ⌊q⌋ + 1

/-- Python `round(x, 2)`. -/
def round2 (q : ℚ) : ℚ := (roundHalfEven (q * 100) : ℚ) / 100

/-- Python `round(x, 1)`. -/
def round1 (q : ℚ) : ℚ := (roundHalfEven (q * 10) : ℚ) / 10

/-! ## Gap scanner (`src/scanners/gap_scanner.py`)

`GapScanner.__init__` reads the thresholds from the environment; they are
embedded as an explicit configuration record.  `self.min_volume = 100000`
is set in `__init__` with the comment "Minimum average volume". -/

structure ScanConfig where
  min_gap_percent : ℚ
  min_price : ℚ
  max_price : ℚ
  min_volume : ℤ

/-- The default configuration: `MIN_GAP_PERCENT=5`, `MIN_PRICE=0.50`,
`MAX_PRICE=20.00`, `min_volume = 100000`. -/
def defaultConfig : ScanConfig :=
  { min_gap_percent := 5, min_price := 1/2, max_price := 20, min_volume := 100000 }

/-- The market data available for one symbol during a scan:
whether `is_tradeable` holds, the result of `get_previous_close`
(`None` on any failure) and the result of `get_premarket_price`
(`None` on failure, otherwise the pair (current price, volume)). -/
structure SymbolInput where
  tradeable : Bool
  prevClose : Option ℚ
  premarket : Option (ℚ × ℤ)

/-- `GapScanner.calculate_gap_percentage`. -/
def calculate_gap_percentage (premarket_price previous_close : ℚ) : ℚ :=
if previous_close = 0 then 0
else (premarket_price - previous_close) / previous_close * 100

/-- The gap event dict built by `GapScanner.scan_symbol` (the timestamp
field, a wall-clock read, is omitted). -/
structure GapResult where
  symbol : String
  previous_close : ℚ
  current_price : ℚ
  gap_percent : ℚ
  volume : ℤ
  gap_direction : String
deriving DecidableEq

/-- `GapScanner.scan_symbol`.  Note the guard `if not previous_close` is
falsy exactly for `None` and `0.0`, and that `self.min_volume` is never
consulted. -/
def scan_symbol (cfg : ScanConfig) (symbol : String) (inp : SymbolInput) :
    Option GapResult :=
  if ¬ inp.tradeable then none
  else match inp.prevClose with
  | none => none
  | some previous_close =>
    if previous_close = 0 then none
    else match inp.premarket with
    | none => none
    | some (current_price, volume) =>
      if current_price < cfg.min_price ∨ current_price > cfg.max_price then none
      else
        let gap_percent := calculate_gap_percentage current_price previous_close
        if |gap_percent| < cfg.min_gap_percent then none
        else some
          { symbol := symbol
            previous_close := previous_close
            current_price := current_price
            gap_percent := round2 gap_percent
            volume := volume
            gap_direction := if gap_percent > 0 then "UP" else "DOWN" }

/-! ## News catalyst scanner (`src/scanners/news_scanner.py`)

Headline text is embedded as `String`; case-insensitive matching lowers the
text to a `List Char` and keyword containment is list-infix containment,
matching Python's `keyword in full_text` on the lowered f-string
`f"{headline} {summary}"`. -/

abbrev Str := List Char

def lowerStr (s : String) : Str := s.toList.map Char.toLower

/-- `NewsScanner.catalyst_keywords` (all lowercase in the source). -/
def catalyst_keywords : List Str :=
  ["fda approval", "fda", "approved", "breakthrough", "patent",
   "contract", "partnership", "merger", "acquisition", "buyout",
   "earnings beat", "revenue", "guidance raised", "upgrade",
   "phase 3", "phase 2", "clinical trial", "results", "efficacy",
   "designation", "clearance", "milestone",
   "offering", "dilution", "warrants", "direct offering",
   "short squeeze", "short interest", "squeeze"].map String.toList

/-- `NewsScanner.negative_keywords`. -/
def negative_keywords : List Str :=
  ["bankruptcy", "delisting", "investigation", "lawsuit",
   "downgrade", "missed", "lowered guidance"].map String.toList

/-- One news item as returned by the news source: headline and summary. -/
structure NewsItem where
  headline : String
  summary : String
deriving DecidableEq

/-- `full_text = f"{headline} {summary}"`, lowered. -/
def fullText (it : NewsItem) : Str :=
  lowerStr it.headline ++ (' ' :: lowerStr it.summary)

/-- Python `item['headline'][:100]`. -/
def truncate100 (s : String) : String := (s.toList.take 100).asString

/-- The inner `for keyword in self.catalyst_keywords` loop of
`scan_symbol_news`: +10 per hit, and the 100-char-truncated headline is
appended while fewer than 3 key headlines have been collected. -/
def posLoop : List Str → Str → String → ℤ → List String → ℤ × List String
  | [], _, _, score, heads => (score, heads)
  | kw :: kws, text, headline, score, heads =>
    if kw <:+: text then
      posLoop kws text headline (score + 10)
        (if heads.length < 3 then heads ++ [truncate100 headline] else heads)
    else posLoop kws text headline score heads

/-- The inner `for keyword in self.negative_keywords` loop: −15 per hit. -/
def negLoop : List Str → Str → ℤ → ℤ
  | [], _, score => score
  | kw :: kws, text, score =>
    negLoop kws text (if kw <:+: text then score - 15 else score)

/-- The outer `for item in news_items[:5]` loop of `scan_symbol_news`. -/
def newsLoop : List NewsItem → ℤ → List String → ℤ × List String
  | [], score, heads => (score, heads)
  | it :: rest, score, heads =>
    let sp := posLoop catalyst_keywords (fullText it) it.headline score heads
    let sn := negLoop negative_keywords (fullText it) sp.1
    newsLoop rest sn sp.2

/-- The dict returned by `NewsScanner.scan_symbol_news` (the
`latest_news_time` wall-clock field is omitted). -/
structure NewsScanResult where
  symbol : String
  news_count : ℕ
  catalyst_score : ℤ
  has_catalyst : Bool
  key_headlines : List String
deriving DecidableEq

/-- `NewsScanner.scan_symbol_news`, on the path where the news source
answered with `news_items`; an empty list, a missing API key or an HTTP
failure all land in the zero-result branch of the source. -/
def scan_symbol_news (symbol : String) (news_items : List NewsItem) :
    NewsScanResult :=
  if news_items.isEmpty then
    { symbol := symbol, news_count := 0, catalyst_score := 0,
      has_catalyst := false, key_headlines := [] }
  else
    let r := newsLoop (news_items.take 5) 0 []
    { symbol := symbol, news_count := news_items.length, catalyst_score := r.1,
      has_catalyst := decide (r.1 ≥ 20), key_headlines := r.2 }

/-- The positive keywords contained in a lowered text, in list order. -/
def positive_hits (text : Str) : List Str :=
  catalyst_keywords.filter fun kw => decide (kw <:+: text)

/-- The negative keywords contained in a lowered text, in list order. -/
def negative_hits (text : Str) : List Str :=
  negative_keywords.filter fun kw => decide (kw <:+: text)

/-- Net score contribution of one news item. -/
def item_score (it : NewsItem) : ℤ :=
  10 * (positive_hits (fullText it)).length -
    15 * (negative_hits (fullText it)).length

/-- One truncated headline per positive-keyword hit of one item. -/
def item_heads (it : NewsItem) : List String :=
  (positive_hits (fullText it)).map fun _ => truncate100 it.headline

/-- All truncated headlines, one per positive-keyword hit, in scan order. -/
def all_heads (items : List NewsItem) : List String :=
  (items.map item_heads).flatten

/-- The key-headline list as the spec's words describe it — "capped to
first 3 matching items, truncated to 100 chars": one entry per matching
ITEM.  Stated from the spec for comparison with `scan_symbol_news`. -/
def claim_key_headlines (items : List NewsItem) : List String :=
  (((items.take 5).filter fun it =>
      decide ((positive_hits (fullText it)).length ≠ 0)).take 3).map
    fun it => truncate100 it.headline

/-! ## Pattern analyzer (`src/analysis/pattern_analyzer.py`) -/

/-- `PatternAnalyzer.__init__` thresholds. -/
def microfloat_threshold : ℤ := 5000000

def nanofloat_threshold : ℤ := 1000000

def high_gap_threshold : ℚ := 15

def mega_gap_threshold : ℚ := 30

/-- The gap dict as consumed by the analyzer: symbol, signed gap percent,
direction and `gap_data.get('volume', 0)`. -/
structure GapData where
  symbol : String
  gap_percent : ℚ
  gap_direction : String
  volume : ℤ
deriving DecidableEq

/-- The float dict handed to `_analyze_float_characteristics`:
`float_shares` (`.get('float_shares', 0)`) and `float_category`
(`.get('float_category', 'Unknown')`). -/
structure FloatData where
  float_shares : ℤ
  float_category : String
deriving DecidableEq

/-- The dict built by `_analyze_float_characteristics`. -/
structure FloatAnalysis where
  category : String
  is_microfloat : Bool
  is_nanofloat : Bool
  squeeze_potential : ℚ
  float_shares : ℤ
deriving DecidableEq

/-- `PatternAnalyzer._analyze_float_characteristics`.  A falsy
`float_data` (Python `None` or an empty dict) yields the all-unknown
record. -/
def analyze_float_characteristics : Option FloatData → FloatAnalysis
  | none =>
    { category := "Unknown", is_microfloat := false, is_nanofloat := false,
      squeeze_potential := 0, float_shares := 0 }
  | some fd =>
    let is_nanofloat := decide (fd.float_shares < nanofloat_threshold)
    let is_microfloat := decide (fd.float_shares < microfloat_threshold)
    let squeeze_potential : ℚ :=
      if is_nanofloat then 95
      else if is_microfloat then 80
      else if fd.float_shares < 10000000 then 60
      else if fd.float_shares < 25000000 then 40
      else 20
    { category := fd.float_category, is_microfloat := is_microfloat,
      is_nanofloat := is_nanofloat, squeeze_potential := squeeze_potential,
      float_shares := fd.float_shares }

/-- The dict built by `_analyze_news_catalyst`.  On the no-catalyst path
the source dict carries no `catalyst_score` key and no reader consults it
there; the field holds the read default 0. -/
structure NewsAnalysis where
  has_catalyst : Bool
  catalyst_strength : ℚ
  catalyst_type : String
  headline_count : ℕ
  catalyst_score : ℤ
deriving DecidableEq

def no_catalyst_analysis : NewsAnalysis :=
  { has_catalyst := false, catalyst_strength := 0, catalyst_type := "None",
    headline_count := 0, catalyst_score := 0 }

/-- `PatternAnalyzer._analyze_news_catalyst`. -/
def analyze_news_catalyst : Option NewsScanResult → NewsAnalysis
  | none => no_catalyst_analysis
  | some nd =>
    if ¬ nd.has_catalyst then no_catalyst_analysis
    else
      let strength : ℚ :=
        if nd.catalyst_score ≥ 50 then 90
        else if nd.catalyst_score ≥ 30 then 70
        else if nd.catalyst_score ≥ 20 then 50
        else 20
      let ctype : String :=
        if nd.catalyst_score ≥ 50 then "Strong"
        else if nd.catalyst_score ≥ 30 then "Moderate"
        else if nd.catalyst_score ≥ 20 then "Weak"
        else "Minimal"
      { has_catalyst := true, catalyst_strength := strength,
        catalyst_type := ctype, headline_count := nd.key_headlines.length,
        catalyst_score := nd.catalyst_score }

/-- The Flash-Research dict handed to `_analyze_flash_statistics`, with the
nested `gap_statistics` / `performance_metrics` reads and their `.get`
defaults absorbed into total fields.  `hasError` is `'error' in
flash_data`. -/
structure FlashRaw where
  hasError : Bool
  continuation_rate : ℚ
  gap_fill_rate : ℚ
  gap_edge_score : ℚ
  volume_factor : ℚ
  total_gaps : ℤ
  avg_gap_size : ℚ
  win_rate_percent : ℚ
  overall_edge_score : ℚ
  trading_recommendations : List String
deriving DecidableEq

/-- The dict built by `_analyze_flash_statistics`. -/
structure FlashAnalysis where
  has_flash_data : Bool
  gap_edge_score : ℚ
  historical_performance : String
  gap_continuation_rate : ℚ
  gap_fill_rate : ℚ
  volume_factor : ℚ
  statistical_edge : String
  total_gaps_analyzed : ℤ
  avg_gap_size : ℚ
  overall_edge_score : ℚ
  trading_recommendations : List String
deriving DecidableEq

/-- The no-data branch of `_analyze_flash_statistics`.  The last four
fields' keys are absent from the source dict on this branch and no
modelled reader consults them behind `has_flash_data = false`; they hold
their read defaults. -/
def no_flash_analysis : FlashAnalysis :=
  { has_flash_data := false, gap_edge_score := 50,
    historical_performance := "Unknown", gap_continuation_rate := 50,
    gap_fill_rate := 50, volume_factor := 1,
    statistical_edge := "Insufficient data", total_gaps_analyzed := 0,
    avg_gap_size := 0, overall_edge_score := 50,
    trading_recommendations := [] }

/-- `PatternAnalyzer._analyze_flash_statistics`. -/
def analyze_flash_statistics : Option FlashRaw → FlashAnalysis
  | none => no_flash_analysis
  | some fd =>
    if fd.hasError then no_flash_analysis
    else
      { has_flash_data := true
        gap_edge_score := fd.gap_edge_score
        historical_performance :=
          if fd.win_rate_percent ≥ 70 then "Excellent"
          else if fd.win_rate_percent ≥ 60 then "Good"
          else if fd.win_rate_percent ≥ 50 then "Average"
          else "Poor"
        gap_continuation_rate := fd.continuation_rate
        gap_fill_rate := fd.gap_fill_rate
        volume_factor := fd.volume_factor
        statistical_edge :=
          if fd.continuation_rate > 70 ∧ fd.gap_fill_rate < 40 then
            "Strong bullish momentum"
          else if fd.continuation_rate > 60 ∧ fd.gap_fill_rate < 50 then
            "Moderate momentum bias"
          else if fd.gap_fill_rate > 80 then "Gap fill tendency"
          else "Neutral statistical profile"
        total_gaps_analyzed := fd.total_gaps
        avg_gap_size := fd.avg_gap_size
        overall_edge_score := fd.overall_edge_score
        trading_recommendations := fd.trading_recommendations }

/-- `PatternAnalyzer._determine_pattern_type`: the ordered first-match
priority list.  The source's nested priority-4 test (`if has-data and
edge≥75: if gap≥8: return`) falls through to priority 5 when `gap < 8`,
exactly as the flattened conjunction does. -/
def determine_pattern_type (gap_percent : ℚ) (gap_direction : String)
    (float_analysis : FloatAnalysis) (news_analysis : NewsAnalysis)
    (volume : ℤ) (flash_analysis : FlashAnalysis) : String :=
  if (float_analysis.is_nanofloat ∧ gap_percent ≥ 10) ∨
     (float_analysis.is_microfloat ∧ gap_percent ≥ 15) then "Float Squeeze"
  else if news_analysis.has_catalyst ∧ news_analysis.catalyst_strength ≥ 70 ∧
      gap_percent ≥ 8 then "News Catalyst"
  else if gap_percent ≥ mega_gap_threshold then "Mega Gap"
  else if flash_analysis.has_flash_data ∧ flash_analysis.gap_edge_score ≥ 75 ∧
      gap_percent ≥ 8 then "Statistical Edge"
  else if gap_percent ≥ 10 ∧ volume > 50000 then "Gap & Go"
  else if float_analysis.is_microfloat ∧ gap_percent ≥ 5 then "Micro Float"
  else "Standard Gap"

/-- The gap-percentage contribution (0-40 points) of
`_calculate_setup_quality`. -/
def setup_gap_points (gap_percent : ℚ) : ℤ :=
  if gap_percent ≥ 30 then 40
  else if gap_percent ≥ 20 then 35
  else if gap_percent ≥ 15 then 30
  else if gap_percent ≥ 10 then 25
  else if gap_percent ≥ 7 then 20
  else if gap_percent ≥ 5 then 15
  else 10

/-- The volume contribution (0-10 points) of `_calculate_setup_quality`. -/
def setup_volume_points (volume : ℤ) : ℤ :=
  if volume > 500000 then 10
  else if volume > 200000 then 7
  else if volume > 100000 then 5
  else if volume > 50000 then 3
  else 0

/-- The Flash-Research contribution (0-18 points) of
`_calculate_setup_quality`: edge-score tier plus continuation bonus. -/
def setup_flash_points (flash_analysis : FlashAnalysis) : ℤ :=
  (if flash_analysis.gap_edge_score ≥ 80 then 15
   else if flash_analysis.gap_edge_score ≥ 70 then 12
   else if flash_analysis.gap_edge_score ≥ 60 then 8
   else if flash_analysis.gap_edge_score ≥ 55 then 5
   else 0) +
  (if flash_analysis.gap_continuation_rate > 75 then 3
   else if flash_analysis.gap_continuation_rate > 65 then 2
   else 0)

/-- `PatternAnalyzer._calculate_setup_quality` (0.3 and 0.2 are the float
literals 3/10 and 1/5; `int(...)` is `pyInt`; the source accumulates into
one `score` variable in the order shown). -/
def calculate_setup_quality (gap_percent : ℚ) (float_analysis : FloatAnalysis)
    (news_analysis : NewsAnalysis) (volume : ℤ)
    (flash_analysis : FlashAnalysis) : ℤ :=
  let score := setup_gap_points gap_percent
  let score := score + pyInt (float_analysis.squeeze_potential * (3/10))
  let score :=
    if news_analysis.has_catalyst then
      score + pyInt (news_analysis.catalyst_strength * (1/5))
    else score
  let score := score + setup_volume_points volume
  let score :=
    if flash_analysis.has_flash_data then score + setup_flash_points flash_analysis
    else score
  min score 100

/-- The `pattern_type` computed by `_classify_pattern_local` from the raw
input tuple: the analyzer composed with `_determine_pattern_type` on
`abs(gap_percent)`. -/
def pattern_type_local (gap_data : GapData) (float_data : Option FloatData)
    (news_data : Option NewsScanResult) (flash_data : Option FlashRaw) :
    String :=
  determine_pattern_type |gap_data.gap_percent| gap_data.gap_direction
    (analyze_float_characteristics float_data)
    (analyze_news_catalyst news_data) gap_data.volume
    (analyze_flash_statistics flash_data)

/-- The `setup_quality` computed by `_classify_pattern_local` from the raw
input tuple. -/
def setup_quality_local (gap_data : GapData) (float_data : Option FloatData)
    (news_data : Option NewsScanResult) (flash_data : Option FlashRaw) : ℤ :=
  calculate_setup_quality |gap_data.gap_percent|
    (analyze_float_characteristics float_data)
    (analyze_news_catalyst news_data) gap_data.volume
    (analyze_flash_statistics flash_data)

/-! ## Edge scorer (`src/analysis/edge_scorer.py`)

`EdgeScorer.calculate_edge_score(gap_data, flash_analysis, float_analysis,
news_analysis, ai_analysis=None)` is called with the analyzer's
`flash_analysis` / `float_analysis` / `news_analysis` dicts and the pattern
analysis as `ai_analysis`.  The whole body sits in a `try` whose `except`
returns `_create_fallback_edge_score`; the body is embedded in
`Except String`, the only raise site in the modelled input space being an
attribute access on a `None` news argument. -/

/-- `EdgeScorer.__init__` weights (floats 0.40/0.25/0.20/0.10/0.05). -/
def weight_flash_research_edge : ℚ := 2/5

def weight_gap_characteristics : ℚ := 1/4

def weight_float_dynamics : ℚ := 1/5

def weight_ai_pattern_recognition : ℚ := 1/10

def weight_news_catalyst : ℚ := 1/20

/-- The AI / pattern-analysis dict fields read by the edge scorer. -/
structure AIAnalysis where
  setup_quality : ℚ
  confidence : ℚ
  pattern_type : String
deriving DecidableEq

/-- `EdgeScorer._score_flash_research_edge`.  The base score 50 is
immediately overwritten by `gap_edge_score` in the source. -/
def score_flash_research_edge (flash_analysis : FlashAnalysis) : ℚ :=
  if ¬ flash_analysis.has_flash_data then 50
  else
    let score := flash_analysis.gap_edge_score
    let score := score +
      (if flash_analysis.gap_continuation_rate > 80 then 15
       else if flash_analysis.gap_continuation_rate > 70 then 10
       else if flash_analysis.gap_continuation_rate > 60 then 5
       else 0)
    let score := score +
      (if flash_analysis.gap_fill_rate < 20 then 10
       else if flash_analysis.gap_fill_rate < 30 then 5
       else if flash_analysis.gap_fill_rate > 80 then -10
       else 0)
    let score := score +
      (if flash_analysis.volume_factor > 4 then 8
       else if flash_analysis.volume_factor > 5/2 then 5
       else if flash_analysis.volume_factor > 3/2 then 2
       else 0)
    let score := score +
      (if flash_analysis.overall_edge_score > 75 then 5
       else if flash_analysis.overall_edge_score > 65 then 3
       else 0)
    min 100 (max 0 score)

/-- `EdgeScorer._score_gap_characteristics`. -/
def score_gap_characteristics (gap_data : GapData) : ℚ :=
  let gap_percent := |gap_data.gap_percent|
  let score : ℚ := 50
  let score := score +
    (if gap_percent ≥ 30 then 25
     else if gap_percent ≥ 20 then 20
     else if gap_percent ≥ 15 then 15
     else if gap_percent ≥ 10 then 10
     else if gap_percent ≥ 7 then 5
     else if gap_percent ≥ 5 then 2
     else -10)
  let score := score + (if gap_data.gap_direction = "UP" then 2 else 0)
  let score := score +
    (if gap_data.volume > 1000000 then 15
     else if gap_data.volume > 500000 then 10
     else if gap_data.volume > 200000 then 5
     else if gap_data.volume > 100000 then 2
     else if gap_data.volume < 10000 then -5
     else 0)
  min 100 (max 0 score)

/-- `EdgeScorer._score_float_dynamics` (`None` float analysis returns the
base 50 before any attribute access). -/
def score_float_dynamics (float_analysis : Option FloatAnalysis)
    (gap_data : GapData) : ℚ :=
  match float_analysis with
  | none => 50
  | some fa =>
    let score : ℚ := 50
    let score := score +
      (if fa.is_nanofloat then 30 else if fa.is_microfloat then 20 else 0)
    let score := score +
      (if fa.squeeze_potential > 90 then 15
       else if fa.squeeze_potential > 80 then 10
       else if fa.squeeze_potential > 70 then 5
       else 0)
    let score :=
      if fa.float_shares > 0 then
        let turnover := (gap_data.volume : ℚ) / (fa.float_shares : ℚ)
        score +
          (if turnover > 1/2 then 15
           else if turnover > 3/10 then 10
           else if turnover > 1/10 then 5
           else 0)
      else score
    min 100 (max 0 score)

/-- `EdgeScorer._score_ai_pattern_recognition` (0.7 and 0.3). -/
def score_ai_pattern_recognition (ai_analysis : Option AIAnalysis) : ℚ :=
  match ai_analysis with
  | none => 50
  | some ai =>
    let ai_score := ai.setup_quality * (7/10) + ai.confidence * (3/10)
    let ai_score :=
      if ai.pattern_type = "Float Squeeze" ∨
         ai.pattern_type = "Statistical Edge" then ai_score + 10
      else if ai.pattern_type = "News Catalyst" ∨
          ai.pattern_type = "Mega Gap" then ai_score + 5
      else ai_score
    min 100 (max 0 ai_score)

/-- The score computed by `_score_news_catalyst` for a non-`None` news
dict: neutral 50 without a catalyst, else `catalyst_strength` plus the type
bonus, clamped. -/
def news_score_value (na : NewsAnalysis) : ℚ :=
  if ¬ na.has_catalyst then 50
  else
    let score := na.catalyst_strength
    let score :=
      if na.catalyst_type = "Strong" then score + 10
      else if na.catalyst_type = "Moderate" then score + 5
      else score
    min 100 (max 0 score)

/-- `EdgeScorer._score_news_catalyst`: a `None` argument raises
(`None.get`). -/
def score_news_catalyst (news_analysis : Option NewsAnalysis) :
    Except String ℚ :=
  match news_analysis with
  | none => .error "AttributeError"
  | some na => .ok (news_score_value na)

/-- The confidence tier computed by `_calculate_confidence` for a
non-`None` news dict. -/
def confidence_value (flash_analysis : FlashAnalysis)
    (float_analysis : Option FloatAnalysis) (na : NewsAnalysis)
    (ai_analysis : Option AIAnalysis) : String :=
  let c1 : ℤ :=
    if flash_analysis.has_flash_data then
      (if flash_analysis.total_gaps_analyzed > 50 then 40
       else if flash_analysis.total_gaps_analyzed > 20 then 30
       else if flash_analysis.total_gaps_analyzed > 10 then 20
       else 10)
    else 0
  let c2 := c1 +
    (match float_analysis with
     | some fa => if fa.float_shares > 0 then 20 else 0
     | none => 0)
  let c3 := c2 +
    (match ai_analysis with
     | some ai => if ai.confidence > 60 then 20 else 10
     | none => 0)
  let c4 := c3 + (if na.has_catalyst then 10 else 0)
  let c5 := c4 + 10
  if c5 ≥ 80 then "Very High"
  else if c5 ≥ 60 then "High"
  else if c5 ≥ 40 then "Medium"
  else "Low"

/-- `EdgeScorer._calculate_confidence` (raises on a `None` news argument;
unreached in the source whenever `_score_news_catalyst` raised first). -/
def calculate_confidence (flash_analysis : FlashAnalysis)
    (float_analysis : Option FloatAnalysis)
    (news_analysis : Option NewsAnalysis) (ai_analysis : Option AIAnalysis) :
    Except String String :=
  match news_analysis with
  | none => .error "AttributeError"
  | some na => .ok (confidence_value flash_analysis float_analysis na ai_analysis)

/-- `EdgeScorer._classify_edge` (multipliers 0.95/0.85/0.7). -/
def classify_edge (score : ℚ) (confidence : String) : String :=
  let adjusted :=
    if confidence = "Very High" then score
    else if confidence = "High" then score * (19/20)
    else if confidence = "Medium" then score * (17/20)
    else score * (7/10)
  if adjusted ≥ 85 then "Exceptional Edge"
  else if adjusted ≥ 75 then "Strong Edge"
  else if adjusted ≥ 65 then "Good Edge"
  else if adjusted ≥ 55 then "Modest Edge"
  else if adjusted ≥ 45 then "Neutral"
  else "Negative Edge"

/-- The result dict of `calculate_edge_score` with the `component_scores`
sub-dict flattened; presentation-only fields (timestamp, `score_weights`,
`trading_recommendations`, `edge_summary`) are omitted. -/
structure EdgeResult where
  symbol : String
  total_edge_score : ℚ
  confidence_level : String
  edge_classification : String
  flash_component : ℚ
  gap_component : ℚ
  float_component : ℚ
  ai_component : ℚ
  news_component : ℚ
deriving DecidableEq

/-- `EdgeScorer._create_fallback_edge_score`. -/
def create_fallback_edge_score (gap_data : GapData) : EdgeResult :=
  { symbol := gap_data.symbol, total_edge_score := 50,
    confidence_level := "Low", edge_classification := "Analysis Error",
    flash_component := 50, gap_component := 50, float_component := 50,
    ai_component := 50, news_component := 50 }

/-- The weighted total of `calculate_edge_score` for a non-`None` news
dict. -/
def edge_total (gap_data : GapData) (flash_analysis : FlashAnalysis)
    (float_analysis : Option FloatAnalysis) (na : NewsAnalysis)
    (ai_analysis : Option AIAnalysis) : ℚ :=
  score_flash_research_edge flash_analysis * weight_flash_research_edge +
  score_gap_characteristics gap_data * weight_gap_characteristics +
  score_float_dynamics float_analysis gap_data * weight_float_dynamics +
  score_ai_pattern_recognition ai_analysis * weight_ai_pattern_recognition +
  news_score_value na * weight_news_catalyst

/-- The `try` body of `EdgeScorer.calculate_edge_score`. -/
def calculate_edge_score_body (gap_data : GapData)
    (flash_analysis : FlashAnalysis) (float_analysis : Option FloatAnalysis)
    (news_analysis : Option NewsAnalysis) (ai_analysis : Option AIAnalysis) :
    Except String EdgeResult :=
  let flash_score := score_flash_research_edge flash_analysis
  let gap_score := score_gap_characteristics gap_data
  let float_score := score_float_dynamics float_analysis gap_data
  let ai_score := score_ai_pattern_recognition ai_analysis
  match score_news_catalyst news_analysis with
  | .error e => .error e
  | .ok news_score =>
    let total_score :=
      flash_score * weight_flash_research_edge +
      gap_score * weight_gap_characteristics +
      float_score * weight_float_dynamics +
      ai_score * weight_ai_pattern_recognition +
      news_score * weight_news_catalyst
    match calculate_confidence flash_analysis float_analysis news_analysis
        ai_analysis with
    | .error e => .error e
    | .ok confidence =>
      .ok
        { symbol := gap_data.symbol
          total_edge_score := round1 total_score
          confidence_level := confidence
          edge_classification := classify_edge total_score confidence
          flash_component := round1 flash_score
          gap_component := round1 gap_score
          float_component := round1 float_score
          ai_component := round1 ai_score
          news_component := round1 news_score }

/-- `EdgeScorer.calculate_edge_score`: the `try`/`except` wrapper. -/
def calculate_edge_score (gap_data : GapData)
    (flash_analysis : FlashAnalysis) (float_analysis : Option FloatAnalysis)
    (news_analysis : Option NewsAnalysis) (ai_analysis : Option AIAnalysis) :
    EdgeResult :=
  match calculate_edge_score_body gap_data flash_analysis float_analysis
      news_analysis ai_analysis with
  | .ok r => r
  | .error _ => create_fallback_edge_score gap_data

/-! ## Historical statistics provider
(`src/api/flash_research_client.py` and
`src/api/flash_research_final_scraper.py`)

Only the `use_scraper=True` configuration is modelled — it is the one
`main.py` constructs.  In it, `FlashResearchClient.analyze_symbol` calls
`FlashResearchFinalScraper.get_comprehensive_analysis`, which handles its
own failures: on authentication failure or extraction failure it returns
the SCRAPER's `_get_simulated_data`, which re-seeds Python's generator
with `hash(symbol)` ("Seed random with symbol for consistency") and is
tagged `source='flash_research_simulated'` with `success=True`.  The
CLIENT's unseeded `_get_simulated_data` backstop runs only when the
scraper call raises (e.g. the un-guarded `setup_driver`).

The module-level generator of Python's `random` is a stream of raw draws
threaded explicitly; one draw is consumed per `randint`/`uniform`/`choice`
call, so consecutive unseeded calls advance the shared state, while
`random.seed(h)` replaces the state by a stream determined by `h`. -/

abbrev RandState := List ℕ

/-- One raw draw from the generator stream (0 once exhausted). -/
def drawNat : RandState → ℕ × RandState
  | [] => (0, [])
  | h :: t => (h, t)

/-- `random.randint(a, b)`: a state-dependent integer in `[a, b]`. -/
def py_randint (a b : ℤ) (s : RandState) : ℤ × RandState :=
  let d := drawNat s
  (a + (d.1 : ℤ) % (b - a + 1), d.2)

/-- `round(random.uniform(a, b), 1)`: a state-dependent value in `[a, b]`
on the 0.1 grid (used only with `(b − a) * 10` integral). -/
def py_uniform_round1 (a b : ℚ) (s : RandState) : ℚ × RandState :=
  let d := drawNat s
  let m : ℤ := (d.1 : ℤ) % (⌊(b - a) * 10⌋ + 1)
  (a + (m : ℚ) / 10, d.2)

/-- The dict returned by `FlashResearchClient.analyze_symbol`.  `source` is
`none` when the source dict carries no `'source'` key — exactly the
client-backstop branch reached when the scraper raised.  The
`trading_recommendations` strings (pure formatting) are omitted. -/
structure AnalyzeResult where
  has_flash_data : Bool
  gap_edge_score : ℤ
  historical_performance : String
  gap_continuation_rate : ℚ
  gap_fill_rate : ℚ
  volume_factor : ℚ
  statistical_edge : String
  total_gaps_analyzed : ℤ
  avg_gap_size : ℚ
  overall_edge_score : ℤ
  source : Option String
deriving DecidableEq

/-- `FlashResearchClient._get_simulated_data` — the client's own backstop,
reached only when the scraper call raised.  The `symbol` parameter is
accepted and never used, exactly as in the source; every numeric value is
drawn from the module-level generator in whatever state it is in. -/
def get_simulated_data (symbol : String) (s : RandState) :
    AnalyzeResult × RandState :=
  let r1 := py_randint 60 80 s
  let continuation_rate := r1.1
  let r2 := py_randint 25 45 r1.2
  let gap_fill_rate := r2.1
  let r3 := py_randint 30 60 r2.2
  let total_gaps := r3.1
  let r4 := py_uniform_round1 (3/2) (7/2) r3.2
  let volume_factor := r4.1
  let r5 := py_uniform_round1 12 25 r4.2
  let avg_gap_size := r5.1
  let r6 := py_randint 65 85 r5.2
  let edge_score := r6.1
  ({ has_flash_data := true
     gap_edge_score := edge_score
     historical_performance := if edge_score > 70 then "Good" else "Fair"
     gap_continuation_rate := (continuation_rate : ℚ)
     gap_fill_rate := (gap_fill_rate : ℚ)
     volume_factor := volume_factor
     statistical_edge :=
       if continuation_rate > 70 then "Strong bullish momentum"
       else "Moderate momentum"
     total_gaps_analyzed := total_gaps
     avg_gap_size := avg_gap_size
     overall_edge_score := edge_score
     source := none }, r6.2)

/-- The scraper's `gap_statistics` dict with the `.get` defaults of
`analyze_symbol` absorbed into total fields. -/
structure ScraperStats where
  continuation_rate : ℚ
  gap_fill_rate : ℚ
  premarket_volume_avg : ℚ
  total_gaps : ℤ
  avg_gap_size : ℚ
deriving DecidableEq

/-- `FlashResearchClient._calculate_edge_score_from_stats`. -/
def calculate_edge_score_from_stats (stats : ScraperStats) : ℤ :=
  let score : ℤ := 50
  let score := score +
    (if stats.continuation_rate > 75 then 20
     else if stats.continuation_rate > 65 then 15
     else if stats.continuation_rate > 55 then 10
     else 0)
  let score := score +
    (if stats.gap_fill_rate < 30 then 15
     else if stats.gap_fill_rate < 45 then 10
     else if stats.gap_fill_rate > 70 then -5
     else 0)
  let score := score +
    (if stats.total_gaps > 50 then 10
     else if stats.total_gaps > 30 then 5
     else 0)
  let score := score +
    (if stats.avg_gap_size > 5 then 10
     else if stats.avg_gap_size > 3 then 5
     else 0)
  max 0 (min 100 score)

/-- `FlashResearchClient._get_performance_from_score`. -/
def get_performance_from_score (score : ℤ) : String :=
  if score ≥ 80 then "Excellent"
  else if score ≥ 70 then "Good"
  else if score ≥ 60 then "Fair"
  else "Poor"

/-- `FlashResearchClient._get_edge_description`. -/
def get_edge_description (stats : ScraperStats) : String :=
  if stats.continuation_rate > 75 ∧ stats.gap_fill_rate < 35 then
    "Strong momentum edge"
  else if stats.continuation_rate > 65 then "Moderate momentum bias"
  else if stats.gap_fill_rate > 70 then "Mean reversion tendency"
  else "Neutral statistical edge"

/-- The interpreter-level inputs of the scraper's symbol-seeded fallback:
Python's `hash(symbol)` and the stream of raw draws the Mersenne generator
produces after `random.seed(h)`.  Both live in CPython, not in this
repository, and are fixed within one process (string hashing is
randomized per process by PYTHONHASHSEED — the claim's "for a fixed
seed/config"); they enter the model as explicit parameters. -/
structure PyRandomModel where
  hashStr : String → ℕ
  seedStream : ℕ → RandState

/-- A dict returned by `FlashResearchFinalScraper.get_comprehensive_analysis`
(both return sites set `success = True`): the `source` tag, the
`gap_statistics` fields the client reads, and the `success` flag.  The
symbol/timestamp/current_url/data_found metadata and the
`recent_gaps`/close-rate statistics the client never reads are omitted. -/
structure ScraperResult where
  source : String
  gap_statistics : ScraperStats
  success : Bool
deriving DecidableEq

/-- `FlashResearchFinalScraper._get_simulated_data`: re-seeds the module
generator with `hash(symbol)` and draws, in source order, total gaps,
gap-fill rate, continuation rate, red-close rate (stored fields the client
never reads are still drawn), average gap size, premarket volume, and five
`recent_gaps` entries of three draws each (the trailing `.drop 15`).
Tagged `source = "flash_research_simulated"`, `success = True`.  The
incoming generator state is discarded by the re-seed, so the result is a
function of the symbol (and the fixed interpreter environment) alone. -/
def scraper_get_simulated_data (env : PyRandomModel) (symbol : String) :
    ScraperResult × RandState :=
  let s0 := env.seedStream (env.hashStr symbol)
  let r1 := py_randint 25 85 s0
  let r2 := py_uniform_round1 55 85 r1.2
  let r3 := py_uniform_round1 65 80 r2.2
  let r4 := py_uniform_round1 35 65 r3.2
  let r5 := py_uniform_round1 (21/10) (34/5) r4.2
  let r6 := py_randint 75000 250000 r5.2
  ({ source := "flash_research_simulated"
     gap_statistics :=
       { continuation_rate := r3.1
         gap_fill_rate := r2.1
         premarket_volume_avg := (r6.1 : ℚ)
         total_gaps := r1.1
         avg_gap_size := r5.1 }
     success := true },
   r6.2.drop 15)

/-- How one call to `get_comprehensive_analysis` went, the cases its
source distinguishes: an exception escaped the un-guarded prologue
(`setup_driver` and session checks, propagating to the client's `except`),
`_ensure_authenticated` returned False, `_extract_real_data` raised inside
the `try`, or real extraction succeeded with the page's statistics. -/
inductive ScraperRun where
  | raised : ScraperRun
  | authFailed : ScraperRun
  | extractionFailed : ScraperRun
  | real (gap_statistics : ScraperStats) : ScraperRun

/-- `FlashResearchFinalScraper.get_comprehensive_analysis`: authentication
failure and extraction failure are handled INSIDE the scraper by the
symbol-seeded `_get_simulated_data`; the real branch is tagged
`source = "flash_research_real"`; only an exception outside the `try`
escapes to the caller.  Every dict it returns has `success = True`. -/
def get_comprehensive_analysis (env : PyRandomModel) (symbol : String)
    (run : ScraperRun) (s : RandState) :
    Except String (ScraperResult × RandState) :=
  match run with
  | .raised => .error "WebDriverException"
  | .authFailed => .ok (scraper_get_simulated_data env symbol)
  | .extractionFailed => .ok (scraper_get_simulated_data env symbol)
  | .real stats =>
    .ok ({ source := "flash_research_real", gap_statistics := stats,
           success := true }, s)

/-- `FlashResearchClient.analyze_symbol` (the `use_scraper=True`
configuration `main.py` builds): converts the scraper dict on its
`success` path — including the scraper's internally substituted data,
which arrives with `success = True` — and falls back to the client's own
unseeded `_get_simulated_data` only when the scraper call raised.  The
`else` branch mirrors the source's `if scraper_result.get('success')`
test; no dict the repository's scraper returns makes it false.  Both
scraper dicts carry a `'source'` key, so
`scraper_result.get('source', 'flash_research_final')` is that key. -/
def analyze_symbol (env : PyRandomModel) (symbol : String) (run : ScraperRun)
    (s : RandState) : AnalyzeResult × RandState :=
  match get_comprehensive_analysis env symbol run s with
  | .error _ => get_simulated_data symbol s
  | .ok (scraper_result, s1) =>
    if scraper_result.success then
      ({ has_flash_data := true
         gap_edge_score :=
           calculate_edge_score_from_stats scraper_result.gap_statistics
         historical_performance :=
           get_performance_from_score
             (calculate_edge_score_from_stats scraper_result.gap_statistics)
         gap_continuation_rate := scraper_result.gap_statistics.continuation_rate
         gap_fill_rate := scraper_result.gap_statistics.gap_fill_rate
         volume_factor :=
           scraper_result.gap_statistics.premarket_volume_avg / 100000
         statistical_edge := get_edge_description scraper_result.gap_statistics
         total_gaps_analyzed := scraper_result.gap_statistics.total_gaps
         avg_gap_size := scraper_result.gap_statistics.avg_gap_size
         overall_edge_score :=
           calculate_edge_score_from_stats scraper_result.gap_statistics
         source := some scraper_result.source }, s1)
    else get_simulated_data symbol s1

/-! ## Scan cycle and alerting (`src/main.py`) -/

/-- `TradingBot._calculate_our_scoring`, reduced to the `total_score` it
returns (the per-component dict and the `reasoning` string are
presentation).  `float_shares` is `gap_data.get('float_shares', 0)` — the
scanner's gap dicts carry no such key, so the pipeline passes 0. -/
def calculate_our_scoring (gap_percent : ℚ) (volume : ℤ) (float_shares : ℤ)
    (flash_data : Option AnalyzeResult) : ℤ :=
  let gap_score : ℤ :=
    if gap_percent ≥ 20 then 25
    else if gap_percent ≥ 15 then 22
    else if gap_percent ≥ 10 then 18
    else if gap_percent ≥ 5 then 12
    else 5
  let volume_score : ℤ :=
    if volume ≥ 1000000 then 20
    else if volume ≥ 500000 then 16
    else if volume ≥ 100000 then 12
    else 8
  let float_score : ℤ :=
    if float_shares > 0 then
      (if float_shares ≤ 5000000 then 15
       else if float_shares ≤ 10000000 then 12
       else if float_shares ≤ 20000000 then 9
       else 6)
    else 8
  let flash_score : ℤ :=
    match flash_data with
    | some fd =>
      if fd.has_flash_data then pyInt ((fd.gap_edge_score : ℚ) / 100 * 40)
      else 20
    | none => 20
  let ai_score : ℤ := 8
  gap_score + volume_score + float_score + flash_score + ai_score

/-- A gap dict after `_run_comprehensive_analysis` / the fallback branch of
`run_gap_scan`: the original gap plus its `combined_score`. -/
structure EnhancedGap where
  gap : GapResult
  combined_score : ℚ
deriving DecidableEq

/-- Enhancement of one gap inside `run_gap_scan`.
`some flash_data` is a successful `_run_comprehensive_analysis` whose Flash
lookup produced `flash_data` (`none` there when Flash Research is disabled
or raised — both caught inside); in that case
`combined_score = our_analysis['total_score']`.  The outer `none` is the
`except` branch of the per-gap loop, where the source sets
`combined_score = abs(gap_percent)`. -/
def enhance_gap (g : GapResult) (outcome : Option (Option AnalyzeResult)) :
    EnhancedGap :=
  match outcome with
  | some flash_data =>
    { gap := g,
      combined_score :=
        (calculate_our_scoring |g.gap_percent| g.volume 0 flash_data : ℚ) }
  | none => { gap := g, combined_score := |g.gap_percent| }

/-- Descending order on gap size: `results.sort(key=lambda x:
abs(x['gap_percent']), reverse=True)`. -/
def gapRank (a b : GapResult) : Prop := |b.gap_percent| ≤ |a.gap_percent|

instance : DecidableRel gapRank := fun a b =>
  inferInstanceAs (Decidable (_ ≤ _))

instance : IsTotal GapResult gapRank :=
  ⟨fun a b => le_total |b.gap_percent| |a.gap_percent|⟩

instance : IsTrans GapResult gapRank :=
  ⟨fun _ _ _ h1 h2 => le_trans h2 h1⟩

/-- `GapScanner.scan_watchlist`: scan every symbol, keep the gap events,
sort by gap size (highest first). -/
def scan_watchlist (cfg : ScanConfig) (inputs : List (String × SymbolInput)) :
    List GapResult :=
  List.insertionSort gapRank
    (inputs.filterMap fun si => scan_symbol cfg si.1 si.2)

/-- Descending order on combined score: `enhanced_results.sort(key=lambda
x: x.get('combined_score', 0), reverse=True)`. -/
def combinedRank (a b : EnhancedGap) : Prop :=
  b.combined_score ≤ a.combined_score

instance : DecidableRel combinedRank := fun a b =>
  inferInstanceAs (Decidable (_ ≤ _))

instance : IsTotal EnhancedGap combinedRank :=
  ⟨fun a b => le_total b.combined_score a.combined_score⟩

instance : IsTrans EnhancedGap combinedRank :=
  ⟨fun _ _ _ h1 h2 => le_trans h2 h1⟩

/-- `TradingBot.run_gap_scan` (one scan cycle, market open): scan and
filter the watchlist, enhance each gap (`outcomes` gives each symbol's
analysis outcome), rank by combined score, and hand the ranked list to the
alert sender.  The first component is the ranked `enhanced_results`; the
second is the list `_send_enhanced_alerts` actually sends, its
`results[:3]` truncation included. -/
def run_gap_scan (cfg : ScanConfig) (inputs : List (String × SymbolInput))
    (outcomes : String → Option (Option AnalyzeResult)) :
    List EnhancedGap × List EnhancedGap :=
  let gap_results := scan_watchlist cfg inputs
  let enhanced_results :=
    gap_results.map fun g => enhance_gap g (outcomes g.symbol)
  let ranked := List.insertionSort combinedRank enhanced_results
  (ranked, ranked.take 3)

theorem roundHalfEven_nonneg {q : ℚ} (h : 0 ≤ q) : 0 ≤ roundHalfEven q := by
  unfold roundHalfEven
  have h0 : (0 : ℤ) ≤ ⌊q⌋ := by exact_mod_cast Int.le_floor.2 (by exact_mod_cast h)
  split_ifs <;> omega

theorem roundHalfEven_le {q : ℚ} {n : ℤ} (h : q ≤ n) : roundHalfEven q ≤ n := by
  unfold roundHalfEven
  have hf : ⌊q⌋ ≤ n := by
    have h2 := Int.floor_le_floor (α := ℚ) h
    simpa using h2
  have : ⌊q⌋ < n ∨ ⌊q⌋ = n := lt_or_eq_of_le hf
  split_ifs with h1 h2 h3
  · exact hf
  · -- here q - ⌊q⌋ > 1/2, so q is not an integer, so ⌊q⌋ < q ≤ n
    rcases this with h' | h'
    · omega
    · exfalso
      have : (⌊q⌋ : ℚ) = (n : ℚ) := by exact_mod_cast h'
      have hq : q - ⌊q⌋ ≤ 0 := by
        rw [this]
        linarith
      linarith
  · exact hf
  · rcases this with h' | h'
    · omega
    · exfalso
      have : (⌊q⌋ : ℚ) = (n : ℚ) := by exact_mod_cast h'
      have hq : q - ⌊q⌋ ≤ 0 := by
        rw [this]
        linarith
      -- contradiction with q - ⌊q⌋ = 1/2
      have : q - ⌊q⌋ = 1/2 := le_antisymm (not_lt.1 h2) (not_lt.1 (by simpa using h1))
      linarith

theorem round1_mem_Icc {q : ℚ} (h0 : 0 ≤ q) (h1 : q ≤ 100) :
    0 ≤ round1 q ∧ round1 q ≤ 100 := by
  unfold round1
  constructor
  · have := roundHalfEven_nonneg (q := q * 10) (by linarith)
    positivity
  · have := roundHalfEven_le (q := q * 10) (n := 1000) (by push_cast; linarith)
    have : (roundHalfEven (q * 10) : ℚ) ≤ 1000 := by exact_mod_cast this
    linarith

theorem scan_symbol_some_iff (cfg : ScanConfig) (s : String) (inp : SymbolInput) :
    (scan_symbol cfg s inp).isSome = true ↔
      (inp.tradeable = true ∧ ∃ p, inp.prevClose = some p ∧ p ≠ 0 ∧
        ∃ c v, inp.premarket = some (c, v) ∧ cfg.min_price ≤ c ∧ c ≤ cfg.max_price ∧
          cfg.min_gap_percent ≤ |calculate_gap_percentage c p|) := by
  obtain ⟨t, pc, pm⟩ := inp
  unfold scan_symbol
  cases t
  · simp
  · cases pc with
    | none => simp
    | some p =>
      by_cases hp : p = 0
      · simp [hp]
      · cases pm with
        | none => simp [hp]
        | some cv =>
          obtain ⟨c, v⟩ := cv
          by_cases hr : c < cfg.min_price ∨ c > cfg.max_price
          · simp [hp, hr]
            intro h1 h2
            rcases hr with h | h
            · exact absurd h1 (not_le.2 h)
            · exact absurd h2 (not_le.2 h)
          · push_neg at hr
            by_cases hg : |calculate_gap_percentage c p| < cfg.min_gap_percent
            · simp [hp, hg, not_or.2 ⟨not_lt.2 hr.1, not_lt.2 hr.2⟩, not_le.2 hg]
            · simp [hp, hg, not_or.2 ⟨not_lt.2 hr.1, not_lt.2 hr.2⟩, hr.1, hr.2, not_lt.1 hg]

theorem scan_symbol_eq_some {cfg : ScanConfig} {s : String} {inp : SymbolInput}
    {r : GapResult} (h : scan_symbol cfg s inp = some r) :
    ∃ p c v, inp.prevClose = some p ∧ p ≠ 0 ∧ inp.premarket = some (c, v) ∧
      r = { symbol := s, previous_close := p, current_price := c,
            gap_percent := round2 (calculate_gap_percentage c p), volume := v,
            gap_direction :=
              if calculate_gap_percentage c p > 0 then "UP" else "DOWN" } := by
  obtain ⟨t, pc, pm⟩ := inp
  unfold scan_symbol at h
  cases t
  · simp at h
  · cases pc with
    | none => simp at h
    | some p =>
      by_cases hp : p = 0
      · simp [hp] at h
      · cases pm with
        | none => simp [hp] at h
        | some cv =>
          obtain ⟨c, v⟩ := cv
          refine ⟨p, c, v, rfl, hp, rfl, ?_⟩
          simp only [hp, Bool.not_true, if_false, ite_false, if_neg] at h
          split_ifs at h with h1 h2 h3 h4
          · rw [if_pos h4]
            exact (Option.some_injective _ h).symm
          · rw [if_neg h4]
            exact (Option.some_injective _ h).symm

/-- C4: the gap detector rejects on price band and minimum gap, and rejects
`previous_close` equal to zero or missing — but an event is produced
regardless of the volume (the configured `min_volume` is never consulted by
`scan_symbol`), and a negative `previous_close` is not rejected.  An event
is produced exactly when the symbol is tradeable, a nonzero previous close
and a premarket quote are available, the current price lies inside
[min_price, max_price], and |gap| reaches min_gap_percent. -/
theorem c4_gap_filters (cfg : ScanConfig) (s : String) (inp : SymbolInput) :
    (scan_symbol cfg s inp).isSome = true ↔
      (inp.tradeable = true ∧ ∃ p, inp.prevClose = some p ∧ p ≠ 0 ∧
        ∃ c v, inp.premarket = some (c, v) ∧ cfg.min_price ≤ c ∧ c ≤ cfg.max_price ∧
          cfg.min_gap_percent ≤ |calculate_gap_percentage c p|) :=
  scan_symbol_some_iff cfg s inp

/-- C4 counterexample: with the default configuration a symbol whose volume
is 0 — far below the configured `min_volume = 100000` — still yields a gap
event, refuting the claim that inputs with volume below `min_volume`
produce no event. -/
theorem c4_volume_not_filtered :
    scan_symbol defaultConfig "LOWV" ⟨true, some 10, some (15, 0)⟩ =
      some { symbol := "LOWV", previous_close := 10, current_price := 15,
             gap_percent := 50, volume := 0, gap_direction := "UP" } ∧
    (0 : ℤ) < defaultConfig.min_volume := by
  constructor
  · norm_num [scan_symbol, calculate_gap_percentage, defaultConfig, round2,
      roundHalfEven, abs_of_pos]
  · norm_num [defaultConfig]

/-- C5 (amended): for every produced gap event, the stored `gap_percent` is
the exact formula rounded to two decimals (`round2`), the direction is "UP"
exactly when the unrounded gap is positive, and — for positive previous
close — the unrounded gap is positive exactly when the price gapped up. -/
theorem c5_gap_round_trip (cfg : ScanConfig) (s : String) (inp : SymbolInput)
    (r : GapResult) (h : scan_symbol cfg s inp = some r) :
    r.gap_percent =
      round2 ((r.current_price - r.previous_close) / r.previous_close * 100) ∧
    r.gap_direction =
      (if 0 < (r.current_price - r.previous_close) / r.previous_close * 100
       then "UP" else "DOWN") ∧
    (0 < r.previous_close →
      (0 < (r.current_price - r.previous_close) / r.previous_close * 100 ↔
        r.previous_close < r.current_price)) := by
  obtain ⟨p, c, v, _, hp, _, hr⟩ := scan_symbol_eq_some h
  subst hr
  have hcalc : calculate_gap_percentage c p = (c - p) / p * 100 := by
    simp [calculate_gap_percentage, hp]
  refine ⟨by simp [hcalc], by simp [hcalc, gt_iff_lt], ?_⟩
  intro hp0
  simp only
  rw [div_mul_eq_mul_div, lt_div_iff₀ hp0]
  constructor
  · intro h1
    nlinarith
  · intro h1
    nlinarith

/-- C5 witness: the round-trip theorem applied at a concrete scan. -/
theorem c5_gap_round_trip_witness :
    scan_symbol defaultConfig "RND" ⟨true, some 3, some (4, 0)⟩ =
      some { symbol := "RND", previous_close := 3, current_price := 4,
             gap_percent := 3333/100, volume := 0, gap_direction := "UP" } ∧
    ((3333 : ℚ)/100 = round2 ((4 - 3 : ℚ) / 3 * 100) ∧
     "UP" = (if 0 < ((4 : ℚ) - 3) / 3 * 100 then "UP" else "DOWN") ∧
     (0 < (3 : ℚ) → (0 < ((4 : ℚ) - 3) / 3 * 100 ↔ (3 : ℚ) < 4))) := by
  have h : scan_symbol defaultConfig "RND" ⟨true, some 3, some (4, 0)⟩ =
      some { symbol := "RND", previous_close := 3, current_price := 4,
             gap_percent := 3333/100, volume := 0, gap_direction := "UP" } := by
    norm_num [scan_symbol, calculate_gap_percentage, defaultConfig, round2,
      roundHalfEven, abs_of_pos]
  exact ⟨h, c5_gap_round_trip defaultConfig "RND" _ _ h⟩

/-- C5 counterexample: the claim's exact (unrounded) round-trip fails — for
previous_close = 3, current_price = 4 the stored `gap_percent` is 33.33
while the exact formula gives 100/3. -/
theorem c5_exact_round_trip_fails :
    scan_symbol defaultConfig "RND2" ⟨true, some 3, some (4, 0)⟩ =
      some { symbol := "RND2", previous_close := 3, current_price := 4,
             gap_percent := 3333/100, volume := 0, gap_direction := "UP" } ∧
    ((4 : ℚ) - 3) / 3 * 100 ≠ 3333/100 := by
  constructor
  · norm_num [scan_symbol, calculate_gap_percentage, defaultConfig, round2,
      roundHalfEven, abs_of_pos]
  · norm_num

/-- C1 (amended): classification is a deterministic first-match walk of the
ordered priority list — equal input tuples always classify identically —
and every input with float_shares = 900,000 (a true nano float, below the
1M threshold) and gap_percent = 12 classifies as "Float Squeeze" regardless
of all other fields, because priority rule 1 matches first.  (The claim's
float_shares = 3,000,000 is micro, not nano, and 12% < 15% keeps rule 1
from matching — see the counterexample.) -/
theorem c1_pattern_priority (g g' : GapData) (f f' : Option FloatData)
    (n n' : Option NewsScanResult) (fl fl' : Option FlashRaw)
    (hg : g = g') (hf : f = f') (hn : n = n') (hfl : fl = fl') :
    pattern_type_local g f n fl = pattern_type_local g' f' n' fl' ∧
    (∀ (g0 : GapData) (cat : String) (n0 : Option NewsScanResult)
        (fl0 : Option FlashRaw), g0.gap_percent = 12 →
      pattern_type_local g0
          (some { float_shares := 900000, float_category := cat }) n0 fl0 =
        "Float Squeeze") := by
  subst hg hf hn hfl
  refine ⟨rfl, ?_⟩
  intro g0 cat n0 fl0 h
  unfold pattern_type_local determine_pattern_type
  rw [if_pos]
  left
  constructor
  · simp [analyze_float_characteristics, nanofloat_threshold]
  · rw [h]
    norm_num

/-- C1 witness: the theorem applied at a concrete tuple. -/
theorem c1_pattern_priority_witness :
    pattern_type_local ⟨"NANO", 12, "UP", 0⟩ (some ⟨900000, "nano"⟩)
        none none = "Float Squeeze" :=
  (c1_pattern_priority ⟨"NANO", 12, "UP", 0⟩ ⟨"NANO", 12, "UP", 0⟩
      (some ⟨900000, "nano"⟩) (some ⟨900000, "nano"⟩) none none none none
      rfl rfl rfl rfl).2 ⟨"NANO", 12, "UP", 0⟩ "nano" none none rfl

/-- C1 counterexample: float_shares = 3,000,000 is micro-float (nano needs
< 1M) and with gap_percent = 12 < 15 priority rule 1 does not match: with
no news, no historical data and volume 0 the classification is
"Micro Float", not "Float Squeeze". -/
theorem c1_example_is_not_float_squeeze :
    pattern_type_local ⟨"MICR", 12, "UP", 0⟩ (some ⟨3000000, "micro"⟩)
        none none = "Micro Float" ∧
    pattern_type_local ⟨"MICR", 12, "UP", 0⟩ (some ⟨3000000, "micro"⟩)
        none none ≠ "Float Squeeze" := by
  have h : pattern_type_local ⟨"MICR", 12, "UP", 0⟩ (some ⟨3000000, "micro"⟩)
      none none = "Micro Float" := by
    unfold pattern_type_local determine_pattern_type
    norm_num [analyze_float_characteristics, analyze_news_catalyst,
      analyze_flash_statistics, no_catalyst_analysis, no_flash_analysis,
      nanofloat_threshold, microfloat_threshold, mega_gap_threshold,
      abs_of_pos]
  exact ⟨h, by rw [h]; decide⟩

/-- C10: the squeeze-potential heuristic is a function of `float_shares`
alone — 95 below 1M, 80 below 5M, 60 below 10M, 40 below 25M, 20 otherwise
— and an absent float dict yields squeeze 0 with both float flags false. -/
theorem c10_squeeze_potential :
    (∀ fd : FloatData,
      (analyze_float_characteristics (some fd)).squeeze_potential =
        (if fd.float_shares < 1000000 then (95 : ℚ)
         else if fd.float_shares < 5000000 then 80
         else if fd.float_shares < 10000000 then 60
         else if fd.float_shares < 25000000 then 40
         else 20)) ∧
    ((analyze_float_characteristics none).squeeze_potential = 0 ∧
     (analyze_float_characteristics none).is_microfloat = false ∧
     (analyze_float_characteristics none).is_nanofloat = false) ∧
    (∀ fd fd' : FloatData, fd.float_shares = fd'.float_shares →
      (analyze_float_characteristics (some fd)).squeeze_potential =
        (analyze_float_characteristics (some fd')).squeeze_potential) := by
  have key : ∀ fd : FloatData,
      (analyze_float_characteristics (some fd)).squeeze_potential =
        (if fd.float_shares < 1000000 then (95 : ℚ)
         else if fd.float_shares < 5000000 then 80
         else if fd.float_shares < 10000000 then 60
         else if fd.float_shares < 25000000 then 40
         else 20) := by
    intro fd
    simp only [analyze_float_characteristics, nanofloat_threshold,
      microfloat_threshold, decide_eq_true_eq]
  refine ⟨key, ⟨rfl, rfl, rfl⟩, ?_⟩
  intro fd fd' hsh
  rw [key fd, key fd', hsh]

/-- C10 witness: two float dicts sharing `float_shares` = 3,000,000 (and
nothing else) get the same squeeze potential. -/
theorem c10_squeeze_potential_witness :
    (analyze_float_characteristics (some ⟨3000000, "a"⟩)).squeeze_potential =
      (analyze_float_characteristics (some ⟨3000000, "b"⟩)).squeeze_potential :=
  c10_squeeze_potential.2.2 ⟨3000000, "a"⟩ ⟨3000000, "b"⟩ rfl

/-- Range of one `random.randint` draw. -/
theorem py_randint_mem (a b : ℤ) (s : RandState) (h : a ≤ b) :
    a ≤ (py_randint a b s).1 ∧ (py_randint a b s).1 ≤ b := by
  unfold py_randint
  have hpos : (0 : ℤ) < b - a + 1 := by omega
  have h1 := Int.emod_nonneg ((drawNat s).1 : ℤ) (by omega : b - a + 1 ≠ 0)
  have h2 := Int.emod_lt_of_pos ((drawNat s).1 : ℤ) hpos
  constructor <;> simp <;> omega

/-- Range of one `round(random.uniform(a, b), 1)` draw. -/
theorem py_uniform_round1_mem (a b : ℚ) (s : RandState)
    (h : 0 ≤ ⌊(b - a) * 10⌋) :
    a ≤ (py_uniform_round1 a b s).1 ∧ (py_uniform_round1 a b s).1 ≤ b := by
  unfold py_uniform_round1
  dsimp only
  have hpos : (0 : ℤ) < ⌊(b - a) * 10⌋ + 1 := by omega
  have h1 := Int.emod_nonneg ((drawNat s).1 : ℤ)
    (by omega : ⌊(b - a) * 10⌋ + 1 ≠ 0)
  have h2 := Int.emod_lt_of_pos ((drawNat s).1 : ℤ) hpos
  have h3 : ((drawNat s).1 : ℤ) % (⌊(b - a) * 10⌋ + 1) ≤ ⌊(b - a) * 10⌋ := by
    omega
  have h4 : ((((drawNat s).1 : ℤ) % (⌊(b - a) * 10⌋ + 1) : ℤ) : ℚ) ≤
      (b - a) * 10 := by
    calc ((((drawNat s).1 : ℤ) % (⌊(b - a) * 10⌋ + 1) : ℤ) : ℚ)
        ≤ (⌊(b - a) * 10⌋ : ℚ) := by exact_mod_cast h3
      _ ≤ (b - a) * 10 := Int.floor_le _
  have h5 : (0 : ℚ) ≤ ((((drawNat s).1 : ℤ) % (⌊(b - a) * 10⌋ + 1) : ℤ) : ℚ) := by
    exact_mod_cast h1
  constructor
  · linarith
  · linarith

theorem calculate_edge_score_from_stats_mem (stats : ScraperStats) :
    0 ≤ calculate_edge_score_from_stats stats ∧
      calculate_edge_score_from_stats stats ≤ 100 := by
  unfold calculate_edge_score_from_stats
  dsimp only
  exact ⟨le_max_left 0 _, max_le (by norm_num) (min_le_left _ _)⟩

/-- Every dict `get_comprehensive_analysis` returns has `success = True`:
the client's `else` branch (scraper answered without success) is dead in
this repository. -/
theorem get_comprehensive_analysis_success (env : PyRandomModel)
    (sym : String) (run : ScraperRun) (s : RandState) (r : ScraperResult)
    (s1 : RandState)
    (h : get_comprehensive_analysis env sym run s = .ok (r, s1)) :
    r.success = true := by
  cases run with
  | raised => simp [get_comprehensive_analysis] at h
  | authFailed =>
    simp only [get_comprehensive_analysis, Except.ok.injEq] at h
    have h2 : r = (scraper_get_simulated_data env sym).1 := by
      rw [h]
    rw [h2]
    rfl
  | extractionFailed =>
    simp only [get_comprehensive_analysis, Except.ok.injEq] at h
    have h2 : r = (scraper_get_simulated_data env sym).1 := by
      rw [h]
    rw [h2]
    rfl
  | real stats =>
    simp only [get_comprehensive_analysis, Except.ok.injEq,
      Prod.mk.injEq] at h
    rw [← h.1]

/-- Bounds of `premarket_volume_avg / 100000` for a premarket volume in
the scraper's simulated range. -/
theorem div100000_mem {x : ℤ} (h1 : 75000 ≤ x) (h2 : x ≤ 250000) :
    3/4 ≤ (x : ℚ) / 100000 ∧ (x : ℚ) / 100000 ≤ 5/2 := by
  constructor
  · rw [le_div_iff₀ (by norm_num : (0 : ℚ) < 100000)]
    have h3 : (75000 : ℚ) ≤ (x : ℚ) := by exact_mod_cast h1
    linarith
  · rw [div_le_iff₀ (by norm_num : (0 : ℚ) < 100000)]
    have h3 : (x : ℚ) ≤ 250000 := by exact_mod_cast h2
    linarith

/-- C2 (amended): on the failure modes the provider actually handles —
authentication failure and data-extraction failure — the substitute IS a
deterministic function of the symbol for a fixed interpreter environment:
the scraper re-seeds the generator with `hash(symbol)` before drawing, so
the result ignores the incoming generator state and which of the two
failures occurred, and two consecutive failed lookups for the same symbol
return identical substitute numeric values; each value lies in its fixed
range (continuation 65–80, fill 55–85, gaps 25–85, volume factor
0.75–2.5, average gap 2.1–6.8, edge score 0–100).  The exception is the
path where the scraper itself raises: there the client's unseeded,
symbol-blind backstop answers, and consecutive lookups can differ (see
the counterexample). -/
theorem c2_fallback_symbol_seeded :
    (∀ (env : PyRandomModel) (sym : String) (r r' : ScraperRun)
        (s s' : RandState),
      (r = .authFailed ∨ r = .extractionFailed) →
      (r' = .authFailed ∨ r' = .extractionFailed) →
      (analyze_symbol env sym r s).1 = (analyze_symbol env sym r' s').1) ∧
    (∀ (env : PyRandomModel) (sym : String) (r r' : ScraperRun)
        (s : RandState),
      (r = .authFailed ∨ r = .extractionFailed) →
      (r' = .authFailed ∨ r' = .extractionFailed) →
      (analyze_symbol env sym r' ((analyze_symbol env sym r s).2)).1 =
        (analyze_symbol env sym r s).1) ∧
    (∀ (env : PyRandomModel) (sym : String) (s : RandState),
      (65 ≤ (analyze_symbol env sym .authFailed s).1.gap_continuation_rate ∧
        (analyze_symbol env sym .authFailed s).1.gap_continuation_rate ≤ 80) ∧
      (55 ≤ (analyze_symbol env sym .authFailed s).1.gap_fill_rate ∧
        (analyze_symbol env sym .authFailed s).1.gap_fill_rate ≤ 85) ∧
      (25 ≤ (analyze_symbol env sym .authFailed s).1.total_gaps_analyzed ∧
        (analyze_symbol env sym .authFailed s).1.total_gaps_analyzed ≤ 85) ∧
      (3/4 ≤ (analyze_symbol env sym .authFailed s).1.volume_factor ∧
        (analyze_symbol env sym .authFailed s).1.volume_factor ≤ 5/2) ∧
      (21/10 ≤ (analyze_symbol env sym .authFailed s).1.avg_gap_size ∧
        (analyze_symbol env sym .authFailed s).1.avg_gap_size ≤ 34/5) ∧
      (0 ≤ (analyze_symbol env sym .authFailed s).1.gap_edge_score ∧
        (analyze_symbol env sym .authFailed s).1.gap_edge_score ≤ 100)) := by
  refine ⟨?_, ?_, ?_⟩
  · intro env sym r r' s s' hr hr'
    rcases hr with h | h <;> rcases hr' with h' | h' <;> subst h <;>
      subst h' <;> rfl
  · intro env sym r r' s hr hr'
    rcases hr with h | h <;> rcases hr' with h' | h' <;> subst h <;>
      subst h' <;> rfl
  · intro env sym s
    unfold analyze_symbol get_comprehensive_analysis scraper_get_simulated_data
    dsimp only
    have hg := py_randint_mem 25 85 (env.seedStream (env.hashStr sym))
      (by norm_num)
    have hf := py_uniform_round1_mem 55 85
      (py_randint 25 85 (env.seedStream (env.hashStr sym))).2 (by norm_num)
    have hc := py_uniform_round1_mem 65 80
      (py_uniform_round1 55 85
        (py_randint 25 85 (env.seedStream (env.hashStr sym))).2).2
      (by norm_num)
    have hv := py_randint_mem 75000 250000
      (py_uniform_round1 (21/10) (34/5)
        (py_uniform_round1 35 65
          (py_uniform_round1 65 80
            (py_uniform_round1 55 85
              (py_randint 25 85 (env.seedStream (env.hashStr sym))).2).2).2).2).2
      (by norm_num)
    have ha := py_uniform_round1_mem (21/10) (34/5)
      (py_uniform_round1 35 65
        (py_uniform_round1 65 80
          (py_uniform_round1 55 85
            (py_randint 25 85 (env.seedStream (env.hashStr sym))).2).2).2).2
      (by norm_num)
    have he := calculate_edge_score_from_stats_mem
      { continuation_rate :=
          (py_uniform_round1 65 80
            (py_uniform_round1 55 85
              (py_randint 25 85 (env.seedStream (env.hashStr sym))).2).2).1
        gap_fill_rate :=
          (py_uniform_round1 55 85
            (py_randint 25 85 (env.seedStream (env.hashStr sym))).2).1
        premarket_volume_avg :=
          ((py_randint 75000 250000
            (py_uniform_round1 (21/10) (34/5)
              (py_uniform_round1 35 65
                (py_uniform_round1 65 80
                  (py_uniform_round1 55 85
                    (py_randint 25 85
                      (env.seedStream (env.hashStr sym))).2).2).2).2).2).1 : ℚ)
        total_gaps := (py_randint 25 85 (env.seedStream (env.hashStr sym))).1
        avg_gap_size :=
          (py_uniform_round1 (21/10) (34/5)
            (py_uniform_round1 35 65
              (py_uniform_round1 65 80
                (py_uniform_round1 55 85
                  (py_randint 25 85
                    (env.seedStream (env.hashStr sym))).2).2).2).2).1 }
    exact ⟨hc, hf, hg, div100000_mem hv.1 hv.2, ha, he⟩

/-- C2 witness: auth failure and extraction failure for the same symbol,
from unrelated generator states, return the same substitute. -/
theorem c2_fallback_symbol_seeded_witness :
    (analyze_symbol ⟨fun _ => 0, fun _ => []⟩ "XYZ" .authFailed []).1 =
      (analyze_symbol ⟨fun _ => 0, fun _ => []⟩ "XYZ" .extractionFailed
        [5, 6, 7]).1 :=
  c2_fallback_symbol_seeded.1 ⟨fun _ => 0, fun _ => []⟩ "XYZ" _ _ [] [5, 6, 7]
    (Or.inl rfl) (Or.inr rfl)

/-- C2 counterexample: when the scraper itself raises, the client's
unseeded backstop answers; with the generator state `[0,0,0,0,0,0,1,...]`
two consecutive failed lookups for the same symbol "XYZ" return different
continuation rates (60, then 61) — so the substitute is not a
deterministic function of the symbol on every failure path. -/
theorem c2_raised_backstop_differs :
    (analyze_symbol ⟨fun _ => 0, fun _ => []⟩ "XYZ" .raised
        [0, 0, 0, 0, 0, 0, 1, 0, 0, 0, 0, 0]).1.gap_continuation_rate = 60 ∧
    (analyze_symbol ⟨fun _ => 0, fun _ => []⟩ "XYZ" .raised
        ((analyze_symbol ⟨fun _ => 0, fun _ => []⟩ "XYZ" .raised
          [0, 0, 0, 0, 0, 0, 1, 0, 0, 0, 0, 0]).2)).1.gap_continuation_rate
      = 61 ∧
    (analyze_symbol ⟨fun _ => 0, fun _ => []⟩ "XYZ" .raised
        [0, 0, 0, 0, 0, 0, 1, 0, 0, 0, 0, 0]).1.gap_continuation_rate ≠
      (analyze_symbol ⟨fun _ => 0, fun _ => []⟩ "XYZ" .raised
        ((analyze_symbol ⟨fun _ => 0, fun _ => []⟩ "XYZ" .raised
          [0, 0, 0, 0, 0, 0, 1, 0, 0, 0, 0, 0]).2)).1.gap_continuation_rate := by
  norm_num [analyze_symbol, get_comprehensive_analysis, get_simulated_data,
    py_randint, py_uniform_round1, drawNat]

/-- C3 (amended): every failed lookup returns a substitute instead of
raising, and its tagging depends on the failure path: authentication and
extraction failures flow through the scraper, tagged
`source = 'flash_research_simulated'` (real extractions are tagged
`'flash_research_real'`), so those substitutes ARE distinguishable by the
source tag; but the `has_flash_data` flag is True on every path, a
`has_data = false` marker never occurs, and when the scraper raises the
client backstop returns `has_flash_data = True` with no source tag at
all — on that path a caller cannot distinguish the substitute. -/
theorem c3_substitute_tagging :
    (∀ (env : PyRandomModel) (sym : String) (r : ScraperRun) (s : RandState),
      (r = .authFailed ∨ r = .extractionFailed) →
      (analyze_symbol env sym r s).1.source =
        some "flash_research_simulated" ∧
      (analyze_symbol env sym r s).1.has_flash_data = true) ∧
    (∀ (env : PyRandomModel) (sym : String) (stats : ScraperStats)
        (s : RandState),
      (analyze_symbol env sym (.real stats) s).1.source =
        some "flash_research_real" ∧
      (analyze_symbol env sym (.real stats) s).1.has_flash_data = true) ∧
    (∀ (env : PyRandomModel) (sym : String) (s : RandState),
      analyze_symbol env sym .raised s = get_simulated_data sym s ∧
      (analyze_symbol env sym .raised s).1.has_flash_data = true ∧
      (analyze_symbol env sym .raised s).1.source = none) := by
  refine ⟨?_, fun env sym stats s => ⟨rfl, rfl⟩, fun env sym s => ?_⟩
  · intro env sym r s hr
    rcases hr with h | h <;> subst h <;> exact ⟨rfl, rfl⟩
  · refine ⟨rfl, ?_, ?_⟩ <;>
      simp [analyze_symbol, get_comprehensive_analysis, get_simulated_data]

/-- C3 witness: the tagging theorem applied to a concrete authentication
failure. -/
theorem c3_substitute_tagging_witness :
    (analyze_symbol ⟨fun _ => 0, fun _ => []⟩ "XYZ" .authFailed []).1.source =
      some "flash_research_simulated" ∧
    (analyze_symbol ⟨fun _ => 0, fun _ => []⟩ "XYZ"
        .authFailed []).1.has_flash_data = true :=
  c3_substitute_tagging.1 ⟨fun _ => 0, fun _ => []⟩ "XYZ" .authFailed []
    (Or.inl rfl)

/-- C3 counterexample: on the scraper-raised failure path the substitute
carries `has_flash_data = True` and NO source tag of any kind — neither of
the claim's markers (`has_data` false, or a "simulated" source tag)
exists, so a caller cannot always distinguish substitutes. -/
theorem c3_raised_substitute_untagged :
    ¬(((analyze_symbol ⟨fun _ => 0, fun _ => []⟩ "XYZ"
          .raised []).1.has_flash_data = false) ∨
      (∃ tag : String,
        (analyze_symbol ⟨fun _ => 0, fun _ => []⟩ "XYZ"
          .raised []).1.source = some tag)) := by
  rintro (h | ⟨tag, ht⟩)
  · simp [analyze_symbol, get_comprehensive_analysis, get_simulated_data]
      at h
  · simp [analyze_symbol, get_comprehensive_analysis, get_simulated_data]
      at ht

theorem clamp01_mem (q : ℚ) :
    0 ≤ min 100 (max 0 q) ∧ min 100 (max 0 q) ≤ 100 :=
  ⟨le_min (by norm_num) (le_max_left 0 q), min_le_left _ _⟩

theorem score_flash_research_edge_mem (fa : FlashAnalysis) :
    0 ≤ score_flash_research_edge fa ∧ score_flash_research_edge fa ≤ 100 := by
  unfold score_flash_research_edge
  by_cases h : fa.has_flash_data = true
  · rw [if_neg (by simp [h])]
    exact clamp01_mem _
  · rw [if_pos (by simp [h])]
    norm_num

theorem score_gap_characteristics_mem (gd : GapData) :
    0 ≤ score_gap_characteristics gd ∧ score_gap_characteristics gd ≤ 100 := by
  unfold score_gap_characteristics
  exact clamp01_mem _

theorem score_float_dynamics_mem (fl : Option FloatAnalysis) (gd : GapData) :
    0 ≤ score_float_dynamics fl gd ∧ score_float_dynamics fl gd ≤ 100 := by
  cases fl with
  | none => norm_num [score_float_dynamics]
  | some fa =>
    unfold score_float_dynamics
    exact clamp01_mem _

theorem score_ai_pattern_recognition_mem (ai : Option AIAnalysis) :
    0 ≤ score_ai_pattern_recognition ai ∧
      score_ai_pattern_recognition ai ≤ 100 := by
  cases ai with
  | none => norm_num [score_ai_pattern_recognition]
  | some a =>
    unfold score_ai_pattern_recognition
    exact clamp01_mem _

theorem news_score_value_mem (na : NewsAnalysis) :
    0 ≤ news_score_value na ∧ news_score_value na ≤ 100 := by
  unfold news_score_value
  by_cases h : na.has_catalyst = true
  · rw [if_neg (by simp [h])]
    exact clamp01_mem _
  · rw [if_pos (by simp [h])]
    norm_num

theorem edge_total_mem (gd : GapData) (fa : FlashAnalysis)
    (fl : Option FloatAnalysis) (na : NewsAnalysis) (ai : Option AIAnalysis) :
    0 ≤ edge_total gd fa fl na ai ∧ edge_total gd fa fl na ai ≤ 100 := by
  have h1 := score_flash_research_edge_mem fa
  have h2 := score_gap_characteristics_mem gd
  have h3 := score_float_dynamics_mem fl gd
  have h4 := score_ai_pattern_recognition_mem ai
  have h5 := news_score_value_mem na
  unfold edge_total weight_flash_research_edge weight_gap_characteristics
    weight_float_dynamics weight_ai_pattern_recognition weight_news_catalyst
  constructor
  · have := h1.1
    have := h2.1
    have := h3.1
    have := h4.1
    have := h5.1
    linarith
  · have := h1.2
    have := h2.2
    have := h3.2
    have := h4.2
    have := h5.2
    linarith

/-- With news data present the edge scorer never raises and returns the
fully evaluated record. -/
theorem calculate_edge_score_some_news (gd : GapData) (fa : FlashAnalysis)
    (fl : Option FloatAnalysis) (na : NewsAnalysis) (ai : Option AIAnalysis) :
    calculate_edge_score gd fa fl (some na) ai =
      { symbol := gd.symbol
        total_edge_score := round1 (edge_total gd fa fl na ai)
        confidence_level := confidence_value fa fl na ai
        edge_classification :=
          classify_edge (edge_total gd fa fl na ai)
            (confidence_value fa fl na ai)
        flash_component := round1 (score_flash_research_edge fa)
        gap_component := round1 (score_gap_characteristics gd)
        float_component := round1 (score_float_dynamics fl gd)
        ai_component := round1 (score_ai_pattern_recognition ai)
        news_component := round1 (news_score_value na) } := rfl

theorem calculate_edge_score_none_news (gd : GapData) (fa : FlashAnalysis)
    (fl : Option FloatAnalysis) (ai : Option AIAnalysis) :
    calculate_edge_score gd fa fl none ai = create_fallback_edge_score gd :=
  rfl

theorem pyInt_nonneg {q : ℚ} (h : 0 ≤ q) : 0 ≤ pyInt q := by
  unfold pyInt
  rw [if_pos h]
  exact Int.le_floor.2 (by exact_mod_cast h)

theorem squeeze_potential_nonneg (fd : Option FloatData) :
    0 ≤ (analyze_float_characteristics fd).squeeze_potential := by
  cases fd with
  | none => norm_num [analyze_float_characteristics]
  | some f =>
    dsimp only [analyze_float_characteristics]
    split_ifs <;> norm_num

theorem catalyst_strength_nonneg (nd : Option NewsScanResult) :
    0 ≤ (analyze_news_catalyst nd).catalyst_strength := by
  cases nd with
  | none => norm_num [analyze_news_catalyst, no_catalyst_analysis]
  | some n =>
    dsimp only [analyze_news_catalyst]
    split_ifs <;> norm_num [no_catalyst_analysis]

theorem setup_gap_points_mem (gp : ℚ) :
    10 ≤ setup_gap_points gp ∧ setup_gap_points gp ≤ 40 := by
  unfold setup_gap_points
  split_ifs <;> omega

theorem setup_volume_points_mem (v : ℤ) :
    0 ≤ setup_volume_points v ∧ setup_volume_points v ≤ 10 := by
  unfold setup_volume_points
  split_ifs <;> omega

theorem setup_flash_points_mem (fa : FlashAnalysis) :
    0 ≤ setup_flash_points fa ∧ setup_flash_points fa ≤ 18 := by
  unfold setup_flash_points
  split_ifs <;> omega

theorem calculate_setup_quality_mem (gp : ℚ) (fa : FloatAnalysis)
    (na : NewsAnalysis) (v : ℤ) (fla : FlashAnalysis)
    (hsq : 0 ≤ fa.squeeze_potential) (hst : 0 ≤ na.catalyst_strength) :
    0 ≤ calculate_setup_quality gp fa na v fla ∧
      calculate_setup_quality gp fa na v fla ≤ 100 := by
  unfold calculate_setup_quality
  dsimp only
  have h1 := setup_gap_points_mem gp
  have h2 := setup_volume_points_mem v
  have h3 := setup_flash_points_mem fla
  have h4 : 0 ≤ pyInt (fa.squeeze_potential * (3/10)) :=
    pyInt_nonneg (by positivity)
  have h5 : 0 ≤ pyInt (na.catalyst_strength * (1/5)) :=
    pyInt_nonneg (by positivity)
  constructor
  · apply le_min ?_ (by norm_num)
    split_ifs <;> omega
  · exact min_le_right _ _

/-- C6: every component score of the edge scorer, the weighted total
0.40·historical + 0.25·gap + 0.20·float + 0.10·ai + 0.05·news, and the
pattern classifier's setup quality all lie in [0, 100] for every input
(fallback path included). -/
theorem c6_score_bounds :
    (∀ (gd : GapData) (fa : FlashAnalysis) (fl : Option FloatAnalysis)
        (na : Option NewsAnalysis) (ai : Option AIAnalysis),
      (0 ≤ (calculate_edge_score gd fa fl na ai).flash_component ∧
        (calculate_edge_score gd fa fl na ai).flash_component ≤ 100) ∧
      (0 ≤ (calculate_edge_score gd fa fl na ai).gap_component ∧
        (calculate_edge_score gd fa fl na ai).gap_component ≤ 100) ∧
      (0 ≤ (calculate_edge_score gd fa fl na ai).float_component ∧
        (calculate_edge_score gd fa fl na ai).float_component ≤ 100) ∧
      (0 ≤ (calculate_edge_score gd fa fl na ai).ai_component ∧
        (calculate_edge_score gd fa fl na ai).ai_component ≤ 100) ∧
      (0 ≤ (calculate_edge_score gd fa fl na ai).news_component ∧
        (calculate_edge_score gd fa fl na ai).news_component ≤ 100) ∧
      (0 ≤ (calculate_edge_score gd fa fl na ai).total_edge_score ∧
        (calculate_edge_score gd fa fl na ai).total_edge_score ≤ 100)) ∧
    (∀ (gd : GapData) (fd : Option FloatData) (nd : Option NewsScanResult)
        (fl : Option FlashRaw),
      0 ≤ setup_quality_local gd fd nd fl ∧
        setup_quality_local gd fd nd fl ≤ 100) := by
  constructor
  · intro gd fa fl na ai
    cases na with
    | none =>
      rw [calculate_edge_score_none_news]
      norm_num [create_fallback_edge_score]
    | some na' =>
      rw [calculate_edge_score_some_news]
      dsimp only
      exact ⟨round1_mem_Icc (score_flash_research_edge_mem fa).1
          (score_flash_research_edge_mem fa).2,
        round1_mem_Icc (score_gap_characteristics_mem gd).1
          (score_gap_characteristics_mem gd).2,
        round1_mem_Icc (score_float_dynamics_mem fl gd).1
          (score_float_dynamics_mem fl gd).2,
        round1_mem_Icc (score_ai_pattern_recognition_mem ai).1
          (score_ai_pattern_recognition_mem ai).2,
        round1_mem_Icc (news_score_value_mem na').1
          (news_score_value_mem na').2,
        round1_mem_Icc (edge_total_mem gd fa fl na' ai).1
          (edge_total_mem gd fa fl na' ai).2⟩
  · intro gd fd nd fl
    exact calculate_setup_quality_mem |gd.gap_percent|
      (analyze_float_characteristics fd) (analyze_news_catalyst nd)
      gd.volume (analyze_flash_statistics fl)
      (squeeze_potential_nonneg fd) (catalyst_strength_nonneg nd)

/-- C7: the edge scorer never propagates an exception: with
FloatProfile = None, NewsCatalyst = None and AI result = None it returns
the valid fallback EdgeScore with confidence "Low"; and whenever the
scoring body raises, the result is exactly the fixed neutral fallback —
total 50/100, "Low" confidence, "Analysis Error" classification. -/
theorem c7_graceful_degradation :
    (∀ (gd : GapData) (fa : FlashAnalysis),
      calculate_edge_score gd fa none none none =
        create_fallback_edge_score gd ∧
      (calculate_edge_score gd fa none none none).confidence_level = "Low") ∧
    (∀ (gd : GapData) (fa : FlashAnalysis) (fl : Option FloatAnalysis)
        (na : Option NewsAnalysis) (ai : Option AIAnalysis) (e : String),
      calculate_edge_score_body gd fa fl na ai = .error e →
        calculate_edge_score gd fa fl na ai = create_fallback_edge_score gd) ∧
    (∀ gd : GapData,
      (create_fallback_edge_score gd).total_edge_score = 50 ∧
      (create_fallback_edge_score gd).confidence_level = "Low" ∧
      (create_fallback_edge_score gd).edge_classification =
        "Analysis Error") := by
  refine ⟨fun gd fa => ⟨rfl, rfl⟩, ?_, fun gd => ⟨rfl, rfl, rfl⟩⟩
  intro gd fa fl na ai e h
  unfold calculate_edge_score
  rw [h]

/-- C7 witness: a concrete raising body (news = None) lands on the
fallback. -/
theorem c7_graceful_degradation_witness :
    calculate_edge_score ⟨"W", 0, "UP", 0⟩ no_flash_analysis none none none =
      create_fallback_edge_score ⟨"W", 0, "UP", 0⟩ :=
  c7_graceful_degradation.2.1 ⟨"W", 0, "UP", 0⟩ no_flash_analysis none none
    none "AttributeError" rfl

theorem take_append_take {α : Type} (n : ℕ) (x y : List α) :
    (x.take n ++ y).take n = (x ++ y).take n := by
  induction n generalizing x with
  | zero => simp
  | succ n ih =>
    cases x with
    | nil => simp
    | cons a x => simp [List.take_succ_cons, List.cons_append, ih]

theorem posLoop_score (kws : List Str) (text : Str) (hl : String) :
    ∀ (s : ℤ) (h : List String),
      (posLoop kws text hl s h).1 =
        s + 10 * ((kws.filter fun kw => decide (kw <:+: text)).length : ℤ) := by
  induction kws with
  | nil => intro s h; simp [posLoop]
  | cons kw kws ih =>
    intro s h
    by_cases hk : kw <:+: text
    · have hstep : posLoop (kw :: kws) text hl s h =
          posLoop kws text hl (s + 10)
            (if h.length < 3 then h ++ [truncate100 hl] else h) := by
        simp [posLoop, hk]
      have hfil : ((kw :: kws).filter fun kw => decide (kw <:+: text)) =
          kw :: (kws.filter fun kw => decide (kw <:+: text)) := by
        simp [List.filter_cons, hk]
      rw [hstep, ih, hfil, List.length_cons]
      push_cast
      ring
    · have hstep : posLoop (kw :: kws) text hl s h =
          posLoop kws text hl s h := by
        simp [posLoop, hk]
      have hfil : ((kw :: kws).filter fun kw => decide (kw <:+: text)) =
          kws.filter fun kw => decide (kw <:+: text) := by
        simp [List.filter_cons, hk]
      rw [hstep, ih, hfil]

theorem posLoop_heads (kws : List Str) (text : Str) (hl : String) :
    ∀ (s : ℤ) (h : List String), h.length ≤ 3 →
      (posLoop kws text hl s h).2 =
        (h ++ ((kws.filter fun kw => decide (kw <:+: text)).map
          fun kw => truncate100 hl)).take 3 := by
  induction kws with
  | nil =>
    intro s h hh
    simp [posLoop, List.take_of_length_le hh]
  | cons kw kws ih =>
    intro s h hh
    by_cases hk : kw <:+: text
    · have hstep : posLoop (kw :: kws) text hl s h =
          posLoop kws text hl (s + 10)
            (if h.length < 3 then h ++ [truncate100 hl] else h) := by
        simp [posLoop, hk]
      have hfil : ((kw :: kws).filter fun kw => decide (kw <:+: text)) =
          kw :: (kws.filter fun kw => decide (kw <:+: text)) := by
        simp [List.filter_cons, hk]
      rw [hstep, hfil, List.map_cons]
      by_cases hlen : h.length < 3
      · rw [if_pos hlen, ih _ _ (by simp; omega)]
        rw [List.append_assoc, List.singleton_append]
      · rw [if_neg hlen, ih _ _ hh]
        have h3 : h.length = 3 := by omega
        have hfront : ∀ z : List String, (h ++ z).take 3 = h := by
          intro z
          rw [← h3, List.take_left]
        rw [hfront, hfront]
    · have hstep : posLoop (kw :: kws) text hl s h =
          posLoop kws text hl s h := by
        simp [posLoop, hk]
      have hfil : ((kw :: kws).filter fun kw => decide (kw <:+: text)) =
          kws.filter fun kw => decide (kw <:+: text) := by
        simp [List.filter_cons, hk]
      rw [hstep, hfil]
      exact ih _ _ hh

theorem negLoop_score (kws : List Str) (text : Str) :
    ∀ s : ℤ, negLoop kws text s =
      s - 15 * ((kws.filter fun kw => decide (kw <:+: text)).length : ℤ) := by
  induction kws with
  | nil => intro s; simp [negLoop]
  | cons kw kws ih =>
    intro s
    by_cases hk : kw <:+: text
    · have hstep : negLoop (kw :: kws) text s = negLoop kws text (s - 15) := by
        simp [negLoop, hk]
      have hfil : ((kw :: kws).filter fun kw => decide (kw <:+: text)) =
          kw :: (kws.filter fun kw => decide (kw <:+: text)) := by
        simp [List.filter_cons, hk]
      rw [hstep, ih, hfil, List.length_cons]
      push_cast
      ring
    · have hstep : negLoop (kw :: kws) text s = negLoop kws text s := by
        simp [negLoop, hk]
      have hfil : ((kw :: kws).filter fun kw => decide (kw <:+: text)) =
          kws.filter fun kw => decide (kw <:+: text) := by
        simp [List.filter_cons, hk]
      rw [hstep, ih, hfil]

theorem newsLoop_spec (items : List NewsItem) :
    ∀ (s : ℤ) (h : List String), h.length ≤ 3 →
      (newsLoop items s h).1 = s + (items.map item_score).sum ∧
      (newsLoop items s h).2 = (h ++ all_heads items).take 3 := by
  induction items with
  | nil =>
    intro s h hh
    simp [newsLoop, all_heads, List.take_of_length_le hh]
  | cons it rest ih =>
    intro s h hh
    have hpos1 := posLoop_score catalyst_keywords (fullText it) it.headline s h
    have hpos2 := posLoop_heads catalyst_keywords (fullText it) it.headline s h hh
    have hlen : (posLoop catalyst_keywords (fullText it) it.headline s h).2.length ≤ 3 := by
      rw [hpos2]
      simp [List.length_take]
    have hneg := negLoop_score negative_keywords (fullText it)
      (posLoop catalyst_keywords (fullText it) it.headline s h).1
    obtain ⟨ih1, ih2⟩ := ih
      (negLoop negative_keywords (fullText it)
        (posLoop catalyst_keywords (fullText it) it.headline s h).1)
      (posLoop catalyst_keywords (fullText it) it.headline s h).2 hlen
    constructor
    · rw [newsLoop]
      rw [ih1, hneg, hpos1]
      simp only [List.map_cons, List.sum_cons, item_score, positive_hits,
        negative_hits]
      push_cast
      ring
    · rw [newsLoop]
      rw [ih2, hpos2]
      have hall : all_heads (it :: rest) = item_heads it ++ all_heads rest := by
        simp [all_heads]
      rw [hall, take_append_take, List.append_assoc]
      rfl

/-- What `scan_symbol_news` returns, in closed form: the score is the sum
of per-item net keyword scores over the 5 most recent items, the catalyst
flag is `score ≥ 20`, and the key headlines are the first 3
per-positive-hit truncated headlines. -/
theorem scan_symbol_news_spec (sym : String) (items : List NewsItem) :
    scan_symbol_news sym items =
      { symbol := sym
        news_count := items.length
        catalyst_score := ((items.take 5).map item_score).sum
        has_catalyst := decide (((items.take 5).map item_score).sum ≥ 20)
        key_headlines := (all_heads (items.take 5)).take 3 } := by
  by_cases he : items.isEmpty
  · rw [List.isEmpty_iff] at he
    subst he
    simp [scan_symbol_news, all_heads]
  · unfold scan_symbol_news
    rw [if_neg he]
    dsimp only
    obtain ⟨h1, h2⟩ := newsLoop_spec (items.take 5) 0 [] (by simp)
    rw [h1, h2]
    simp

/-- C8 (amended): the catalyst score starts at 0, adds 10 per
case-insensitive positive-keyword hit and subtracts 15 per
negative-keyword hit across the 5 most recent items; `has_catalyst` holds
exactly when the score reaches 20; `catalyst_type` is bucketed ≥50 Strong,
≥30 Moderate, ≥20 Weak, else Minimal; and `key_headlines` is capped to the
first 3 positive-keyword HITS — one entry per keyword hit, so a single
item matching several keywords contributes several (duplicate) entries —
each entry a headline truncated to at most 100 characters. -/
theorem c8_news_scoring :
    (∀ (sym : String) (items : List NewsItem),
      (scan_symbol_news sym items).catalyst_score =
        ((items.take 5).map item_score).sum ∧
      ((scan_symbol_news sym items).has_catalyst = true ↔
        20 ≤ (scan_symbol_news sym items).catalyst_score) ∧
      (scan_symbol_news sym items).key_headlines =
        (all_heads (items.take 5)).take 3 ∧
      (∀ h ∈ (scan_symbol_news sym items).key_headlines,
        h.length ≤ 100)) ∧
    (∀ nd : NewsScanResult, nd.has_catalyst = true →
      (analyze_news_catalyst (some nd)).catalyst_type =
        (if nd.catalyst_score ≥ 50 then "Strong"
         else if nd.catalyst_score ≥ 30 then "Moderate"
         else if nd.catalyst_score ≥ 20 then "Weak"
         else "Minimal")) := by
  constructor
  · intro sym items
    rw [scan_symbol_news_spec]
    refine ⟨rfl, by simp [ge_iff_le], rfl, ?_⟩
    intro h hmem
    have hmem2 : h ∈ all_heads (items.take 5) := List.take_subset 3 _ hmem
    simp only [all_heads, List.mem_flatten, List.mem_map] at hmem2
    obtain ⟨l, ⟨it, _, hit⟩, hl⟩ := hmem2
    subst hit
    simp only [item_heads, List.mem_map] at hl
    obtain ⟨kw, _, hkw⟩ := hl
    subst hkw
    unfold truncate100
    rw [List.length_asString]
    exact le_trans (List.length_take_le _ _) (by norm_num)
  · intro nd hc
    simp [analyze_news_catalyst, hc]

/-- C8 witness: the bucket theorem applied to a concrete scan result with
score 35 and the catalyst flag set. -/
theorem c8_news_scoring_witness :
    (analyze_news_catalyst
        (some ⟨"X", 1, 35, true, []⟩)).catalyst_type =
      (if (35 : ℤ) ≥ 50 then "Strong"
       else if (35 : ℤ) ≥ 30 then "Moderate"
       else if (35 : ℤ) ≥ 20 then "Weak"
       else "Minimal") :=
  c8_news_scoring.2 ⟨"X", 1, 35, true, []⟩ rfl

/-- C8 counterexample: one headline containing two positive keywords
("fda approval" and "fda") is entered into `key_headlines` twice — the
list caps the first 3 keyword HITS, not the first 3 matching ITEMS as the
claim states. -/
theorem c8_key_headlines_per_hit :
    (scan_symbol_news "BIO" [⟨"FDA Approval", ""⟩]).key_headlines =
      ["FDA Approval", "FDA Approval"] ∧
    claim_key_headlines [⟨"FDA Approval", ""⟩] = ["FDA Approval"] ∧
    (scan_symbol_news "BIO" [⟨"FDA Approval", ""⟩]).key_headlines ≠
      claim_key_headlines [⟨"FDA Approval", ""⟩] := by
  refine ⟨?_, ?_, ?_⟩ <;> decide

/-- C9: within one scan cycle the detected gaps are filtered (by
`scan_symbol`), ranked — `scan_watchlist` descending by gap size, then the
enhanced results descending by combined score — and only then alerted: the
list handed to the messaging sink is exactly the first 3 of the ranked
list, so it has at most 3 entries, every alerted gap scores at least as
high as every gap left out, and gaps below the top 3 produce no outbound
alert. -/
theorem c9_rank_and_truncate (cfg : ScanConfig)
    (inputs : List (String × SymbolInput))
    (outcomes : String → Option (Option AnalyzeResult)) :
    (run_gap_scan cfg inputs outcomes).2 =
      (run_gap_scan cfg inputs outcomes).1.take 3 ∧
    (run_gap_scan cfg inputs outcomes).2.length ≤ 3 ∧
    List.Sorted combinedRank (run_gap_scan cfg inputs outcomes).1 ∧
    (run_gap_scan cfg inputs outcomes).1.Perm
      ((scan_watchlist cfg inputs).map fun g =>
        enhance_gap g (outcomes g.symbol)) ∧
    List.Sorted gapRank (scan_watchlist cfg inputs) ∧
    (∀ a ∈ (run_gap_scan cfg inputs outcomes).2,
      ∀ b ∈ (run_gap_scan cfg inputs outcomes).1.drop 3,
        b.combined_score ≤ a.combined_score) := by
  refine ⟨rfl, ?_, ?_, ?_, ?_, ?_⟩
  · simp [run_gap_scan, List.length_take]
  · exact List.sorted_insertionSort combinedRank _
  · exact List.perm_insertionSort combinedRank _
  · exact List.sorted_insertionSort gapRank _
  · intro a ha b hb
    have hs : List.Sorted combinedRank (run_gap_scan cfg inputs outcomes).1 :=
      List.sorted_insertionSort combinedRank _
    have hsplit :
        (run_gap_scan cfg inputs outcomes).1.take 3 ++
          (run_gap_scan cfg inputs outcomes).1.drop 3 =
          (run_gap_scan cfg inputs outcomes).1 :=
      List.take_append_drop 3 _
    rw [← hsplit] at hs
    have := (List.pairwise_append.1 hs).2.2
    exact this a ha b hb

end JGPT
